import Mathlib

/-!
Shallow embedding of the circadian-rhythm-tracker core:
the validation engine (`src/utils/validators.py`) and the tabular
storage layer (`src/pages/data_handler.py`).

Python dynamic values are modelled by the inductive `Val`; floats are
modelled by `ℚ` (none of the verified properties depend on binary
floating-point rounding).  `datetime` instants are modelled at second
precision (the `microsecond` component, always zero for parsed
timestamps, is dropped).  A raised Python exception is modelled by
`Except.error` with the exception text.  Persistence is modelled by the
in-memory table: `to_csv` followed by `read_csv` is taken as the
identity on rows.
-/

set_option autoImplicit false

namespace Circadian

/-- A Python `datetime.datetime` at second precision. -/
structure DateTime where
  year : ℕ
  month : ℕ
  day : ℕ
  hour : ℕ
  minute : ℕ
  second : ℕ
  deriving DecidableEq, Repr

/-- Lexicographic `<` on instants, as Python compares `datetime` objects. -/
def dtLtB (a b : DateTime) : Bool :=
  if a.year ≠ b.year then decide (a.year < b.year)
  else if a.month ≠ b.month then decide (a.month < b.month)
  else if a.day ≠ b.day then decide (a.day < b.day)
  else if a.hour ≠ b.hour then decide (a.hour < b.hour)
  else if a.minute ≠ b.minute then decide (a.minute < b.minute)
  else decide (a.second < b.second)

/-- Gregorian leap-year test, as in the Python `calendar` and `datetime` modules. -/
def isLeap (y : ℕ) : Bool :=
  y % 4 == 0 && (y % 100 != 0 || y % 400 == 0)

/-- Days in a month, as enforced by the `datetime.datetime` constructor. -/
def daysInMonth (y m : ℕ) : ℕ :=
  if m = 2 then (if isLeap y then 29 else 28)
  else if m = 4 ∨ m = 6 ∨ m = 9 ∨ m = 11 then 30
  else 31

/-- The `datetime.datetime(y, m, d, hh, mm, ss)` constructor: `none`
models the `ValueError` it raises on an out-of-range component
(e.g. February 29 of a non-leap year, or a year below `MINYEAR`). -/
def mkDatetime (y : ℤ) (m d hh mm ss : ℕ) : Option DateTime :=
  if 1 ≤ y ∧ y ≤ 9999 ∧ 1 ≤ m ∧ m ≤ 12 ∧ 1 ≤ d ∧ d ≤ daysInMonth y.toNat m
      ∧ hh ≤ 23 ∧ mm ≤ 59 ∧ ss ≤ 59 then
    some ⟨y.toNat, m, d, hh, mm, ss⟩
  else
    none

/-- A dynamically-typed Python value as it occurs in this program. -/
inductive Val where
  | int (n : ℤ)
  | float (q : ℚ)
  | str (s : String)
  | dt (d : DateTime)
  | pyNone
  deriving DecidableEq, Repr, Inhabited

/-- `isinstance(v, (int, float))`. -/
def Val.isNum : Val → Bool
  | .int _ => true
  | .float _ => true
  | _ => false

/-- The numeric value of an `int` or `float` (0 on the other
constructors, which every use guards against with `isNum`). -/
def Val.toQ : Val → ℚ
  | .int n => (n : ℚ)
  | .float q => q
  | _ => 0

/-- Python `==` between two values of this program (int/float compare
numerically across the two types; distinct types are otherwise unequal). -/
def pyEq : Val → Val → Bool
  | .int a, .int b => a == b
  | .int a, .float b => ((a : ℚ)) == b
  | .float a, .int b => a == ((b : ℚ))
  | .float a, .float b => a == b
  | .str a, .str b => a == b
  | .dt a, .dt b => a == b
  | .pyNone, .pyNone => true
  | _, _ => false

/-- The verdict dictionary (keys `valid`, `message`, and so on)
returned by every validator; the optional keys (`warning`, `warnings`,
`parsed_timestamp`) are modelled by `Option` fields, `none` meaning the
key is absent. -/
structure Verdict where
  valid : Bool
  message : String
  warning : Option String := none
  warnings : Option (List String) := none
  parsed_timestamp : Option DateTime := none
  deriving DecidableEq, Repr

/-- Python `str.strip()`: drop leading and trailing whitespace. -/
def pyStrip (s : String) : String :=
  ⟨((s.data.dropWhile Char.isWhitespace).reverse.dropWhile Char.isWhitespace).reverse⟩

/-- `validators.validate_person_id`.  The falsy test `not person_id`
rejects the empty string, and the `isinstance` test rejects every
non-string, both with the same message.  The regex `^[a-zA-Z0-9_-]+$`
is modelled by a per-character test over the stripped string. -/
def validate_person_id (v : Val) : Verdict :=
  match v with
  | .str s =>
    if s = "" then { valid := false, message := "Person ID is required and must be a string" }
    else
      let t := pyStrip s
      if t.length < 2 then { valid := false, message := "Person ID must be at least 2 characters long" }
      else if t.length > 50 then { valid := false, message := "Person ID must be 50 characters or less" }
      else if ¬ (t.data.all fun c => c.isAlpha || c.isDigit || c = '_' || c = '-') then
        { valid := false, message := "Person ID can only contain letters, numbers, underscores, and hyphens" }
      else { valid := true, message := "Valid person ID" }
  | _ => { valid := false, message := "Person ID is required and must be a string" }

/-- `validators.validate_heart_rate`. -/
def validate_heart_rate (v : Val) : Verdict :=
  if ¬ v.isNum then { valid := false, message := "Heart rate must be a number" }
  else if v.toQ < 30 then { valid := false, message := "Heart rate too low (minimum 30 BPM)" }
  else if v.toQ > 200 then { valid := false, message := "Heart rate too high (maximum 200 BPM)" }
  else { valid := true, message := "Valid heart rate" }

/-- `validators.validate_blood_pressure`. -/
def validate_blood_pressure (systolic diastolic : Val) : Verdict :=
  if ¬ systolic.isNum ∨ ¬ diastolic.isNum then
    { valid := false, message := "Blood pressure values must be numbers" }
  else if systolic.toQ < 70 then
    { valid := false, message := "Systolic pressure too low (minimum 70 mmHg)" }
  else if systolic.toQ > 250 then
    { valid := false, message := "Systolic pressure too high (maximum 250 mmHg)" }
  else if diastolic.toQ < 40 then
    { valid := false, message := "Diastolic pressure too low (minimum 40 mmHg)" }
  else if diastolic.toQ > 150 then
    { valid := false, message := "Diastolic pressure too high (maximum 150 mmHg)" }
  else if diastolic.toQ ≥ systolic.toQ then
    { valid := false, message := "Diastolic pressure must be lower than systolic pressure" }
  else if systolic.toQ < 90 ∧ diastolic.toQ < 60 then
    { valid := true, message := "Valid blood pressure (low normal)",
      warning := some "Blood pressure is in the low range" }
  else if systolic.toQ ≥ 140 ∨ diastolic.toQ ≥ 90 then
    { valid := true, message := "Valid blood pressure (high)",
      warning := some "Blood pressure is in the high range" }
  else { valid := true, message := "Valid blood pressure" }

/-- `validators.validate_energy_level`. -/
def validate_energy_level (v : Val) : Verdict :=
  if ¬ v.isNum then { valid := false, message := "Energy level must be a number" }
  else if v.toQ < 1 then { valid := false, message := "Energy level must be at least 1" }
  else if v.toQ > 10 then { valid := false, message := "Energy level must be at most 10" }
  else { valid := true, message := "Valid energy level" }

/-- `validators.validate_notes`. -/
def validate_notes (v : Val) : Verdict :=
  match v with
  | .pyNone => { valid := true, message := "Valid notes (empty)" }
  | .str s =>
    if s.length > 500 then { valid := false, message := "Notes must be 500 characters or less" }
    else { valid := true, message := "Valid notes" }
  | _ => { valid := false, message := "Notes must be a string" }

/-- Split a character list at every occurrence of the separator; the
result always has at least one (possibly empty) part. -/
def splitOnChar (sep : Char) : List Char → List (List Char)
  | [] => [[]]
  | c :: rest =>
    match splitOnChar sep rest with
    | [] => [[]]
    | h :: t => if c = sep then [] :: h :: t else (c :: h) :: t

/-- Decimal value of a digit list. -/
def digitsToNat (l : List Char) : ℕ :=
  l.foldl (fun n c => n * 10 + (c.toNat - 48)) 0

/-- One dash-or-colon-separated numeric component, as accepted by the
numeric `strptime` directives on canonical zero-padded input. -/
def parseNat? (l : List Char) : Option ℕ :=
  if l ≠ [] ∧ l.all Char.isDigit then some (digitsToNat l) else none

/-- Model of `datetime.strptime` with format `%Y-%m-%d %H:%M:%S`, on the
canonical textual form: a date part and a time part separated by one
space, numeric components separated by `-` and `:`, with the same
range validation the real parser performs. -/
def strptimeFull (s : String) : Option DateTime :=
  match splitOnChar ' ' s.data with
  | [dpart, tpart] =>
    match splitOnChar '-' dpart, splitOnChar ':' tpart with
    | [ys, ms, ds], [hs, mis, ss] =>
      match parseNat? ys, parseNat? ms, parseNat? ds,
            parseNat? hs, parseNat? mis, parseNat? ss with
      | some y, some m, some d, some hh, some mi, some sec =>
        mkDatetime (y : ℤ) m d hh mi sec
      | _, _, _, _, _, _ => none
    | _, _ => none
  | _ => none

/-- Model of `datetime.strptime` with format `%Y-%m-%d %H:%M`: as `strptimeFull` but
without a seconds component (seconds default to 0). -/
def strptimeMin (s : String) : Option DateTime :=
  match splitOnChar ' ' s.data with
  | [dpart, tpart] =>
    match splitOnChar '-' dpart, splitOnChar ':' tpart with
    | [ys, ms, ds], [hs, mis] =>
      match parseNat? ys, parseNat? ms, parseNat? ds,
            parseNat? hs, parseNat? mis with
      | some y, some m, some d, some hh, some mi =>
        mkDatetime (y : ℤ) m d hh mi 0
      | _, _, _, _, _ => none
    | _, _ => none
  | _ => none

/-- The range check of `validators.validate_timestamp` after parsing:
first the future test against `now`, then the construction
`datetime(now.year - 10, now.month, now.day)` — which can raise
`ValueError` (modelled by `Except.error`) — then the lookback test. -/
def checkTimestampRange (now parsed : DateTime) : Except String Verdict :=
  if dtLtB now parsed then
    .ok { valid := false, message := "Timestamp cannot be in the future" }
  else
    match mkDatetime ((now.year : ℤ) - 10) now.month now.day 0 0 0 with
    | none => .error "day is out of range for month"
    | some ten_years_ago =>
      if dtLtB parsed ten_years_ago then
        .ok { valid := false, message := "Timestamp cannot be more than 10 years ago" }
      else
        .ok { valid := true, message := "Valid timestamp", parsed_timestamp := some parsed }

/-- `validators.validate_timestamp`, parameterised by the current
instant `now` (the source reads `datetime.now()`). -/
def validate_timestamp (now : DateTime) (v : Val) : Except String Verdict :=
  match v with
  | .str s =>
    match strptimeFull s with
    | some parsed => checkTimestampRange now parsed
    | none =>
      match strptimeMin s with
      | some parsed => checkTimestampRange now parsed
      | none =>
        .ok { valid := false,
              message := "Invalid timestamp format. Use YYYY-MM-DD HH:MM:SS or YYYY-MM-DD HH:MM" }
  | .dt d => checkTimestampRange now d
  | _ => .ok { valid := false, message := "Timestamp must be a string or datetime object" }

/-- `validators.validate_health_metrics`: short-circuits on the first
failing sub-check, then collects the blood-pressure warning and the two
cross-field heuristics.  The cross-field comparisons act on the raw
numeric arguments, which the sub-checks have already proven numeric. -/
def validate_health_metrics (heart_rate systolic_bp diastolic_bp energy_level : Val) : Verdict :=
  let hrv := validate_heart_rate heart_rate
  if ¬ hrv.valid then hrv
  else
    let bpv := validate_blood_pressure systolic_bp diastolic_bp
    if ¬ bpv.valid then bpv
    else
      let env := validate_energy_level energy_level
      if ¬ env.valid then env
      else
        let warnings :=
          (match bpv.warning with | some w => [w] | none => [])
          ++ (if energy_level.toQ ≥ 8 ∧ heart_rate.toQ < 60 then
                ["High energy level with low heart rate - please verify readings"] else [])
          ++ (if energy_level.toQ ≤ 3 ∧ heart_rate.toQ > 100 then
                ["Low energy with high heart rate - consider medical consultation"] else [])
        { valid := true, message := "All health metrics are valid",
          warnings := if warnings ≠ [] then some warnings else none }

/-- The `entry_data` dictionary passed to
`validators.validate_entry_data`; an `Option` field set to `none`
models an absent key. -/
structure EntryData where
  person_id : Option Val
  timestamp : Option Val
  heart_rate : Option Val
  systolic_bp : Option Val
  diastolic_bp : Option Val
  energy_level : Option Val
  notes : Option Val
  deriving DecidableEq, Repr

/-- The first required field missing from `entry_data`, in the order of
the `required_fields` list of `validate_entry_data`. -/
def firstMissingField (e : EntryData) : Option String :=
  if e.person_id.isNone then some "person_id"
  else if e.timestamp.isNone then some "timestamp"
  else if e.heart_rate.isNone then some "heart_rate"
  else if e.systolic_bp.isNone then some "systolic_bp"
  else if e.diastolic_bp.isNone then some "diastolic_bp"
  else if e.energy_level.isNone then some "energy_level"
  else none

/-- `validators.validate_entry_data`.  After the presence check every
required field is `some`; the `getD` defaults are unreachable then. -/
def validate_entry_data (now : DateTime) (e : EntryData) : Except String Verdict :=
  match firstMissingField e with
  | some f => .ok { valid := false, message := "Missing required field: " ++ f }
  | none =>
    let person_validation := validate_person_id (e.person_id.getD .pyNone)
    if ¬ person_validation.valid then .ok person_validation
    else do
      let timestamp_validation ← validate_timestamp now (e.timestamp.getD .pyNone)
      if ¬ timestamp_validation.valid then .ok timestamp_validation
      else
        let metrics_validation := validate_health_metrics (e.heart_rate.getD .pyNone)
          (e.systolic_bp.getD .pyNone) (e.diastolic_bp.getD .pyNone) (e.energy_level.getD .pyNone)
        if ¬ metrics_validation.valid then .ok metrics_validation
        else
          match e.notes with
          | some n =>
            let notes_validation := validate_notes n
            if ¬ notes_validation.valid then .ok notes_validation
            else
              .ok { valid := true, message := "Entry data is valid",
                    warnings := metrics_validation.warnings }
          | none =>
            .ok { valid := true, message := "Entry data is valid",
                  warnings := metrics_validation.warnings }

/-- One row of the DataFrame handed to `validate_csv_data`: the six
required columns (whose presence the column check has established) and
an optional `notes` column, read by `row.get` with an empty-string default. -/
structure CsvRow where
  person_id : Val
  timestamp : Val
  heart_rate : Val
  systolic_bp : Val
  diastolic_bp : Val
  energy_level : Val
  notes : Option Val
  deriving DecidableEq, Repr

/-- The `entry_data` dict that `validate_csv_data` builds from a row:
all seven keys present, `notes` defaulting to the empty string. -/
def rowToEntry (r : CsvRow) : EntryData :=
  { person_id := some r.person_id, timestamp := some r.timestamp,
    heart_rate := some r.heart_rate, systolic_bp := some r.systolic_bp,
    diastolic_bp := some r.diastolic_bp, energy_level := some r.energy_level,
    notes := some (r.notes.getD (.str "")) }

/-- A pandas DataFrame as `validate_csv_data` sees it: its column list
and its rows. -/
structure Df where
  columns : List String
  rows : List CsvRow
  deriving DecidableEq, Repr

/-- The result dictionary of `validate_csv_data`; `Option` fields model
keys that are present only on some paths. -/
structure CsvVerdict where
  valid : Bool
  message : String
  errors : Option (List String) := none
  total_errors : Option ℕ := none
  warnings : Option (List String) := none
  total_warnings : Option ℕ := none
  deriving DecidableEq, Repr

/-- Python `repr` of a list of strings, as interpolated into the
missing-columns message. -/
def pyStrListRepr (l : List String) : String :=
  "[" ++ String.intercalate ", " (l.map fun s => "\x27" ++ s ++ "\x27") ++ "]"

/-- The row loop of `validate_csv_data`, started at row index `i`:
returns the error messages and warning messages accumulated over ALL
rows (a row whose validation raises is caught and reported as an
error message, so the loop itself never raises). -/
def csvLoop (now : DateTime) (rows : List CsvRow) (i : ℕ) : List String × List String :=
  match rows with
  | [] => ([], [])
  | r :: rest =>
    let acc := csvLoop now rest (i + 1)
    match validate_entry_data now (rowToEntry r) with
    | .error msg =>
      (("Row " ++ toString (i + 1) ++ ": Error validating data - " ++ msg) :: acc.1, acc.2)
    | .ok v =>
      if ¬ v.valid then
        (("Row " ++ toString (i + 1) ++ ": " ++ v.message) :: acc.1, acc.2)
      else
        match v.warnings with
        | some wl => (acc.1, (wl.map fun w => "Row " ++ toString (i + 1) ++ ": " ++ w) ++ acc.2)
        | none => acc

/-- The list of required column names shared by `validate_csv_data` and
`validate_entry_data`. -/
def required_columns : List String :=
  ["person_id", "timestamp", "heart_rate", "systolic_bp", "diastolic_bp", "energy_level"]

/-- `validators.validate_csv_data`. -/
def validate_csv_data (now : DateTime) (df : Df) : CsvVerdict :=
  let missing := required_columns.filter fun c => !(df.columns.contains c)
  if missing ≠ [] then
    { valid := false, message := "Missing required columns: " ++ pyStrListRepr missing }
  else if df.rows = [] then
    { valid := false, message := "No data found in CSV" }
  else
    let acc := csvLoop now df.rows 0
    if acc.1 ≠ [] then
      { valid := false,
        message := "Validation failed with " ++ toString acc.1.length ++ " errors",
        errors := some (acc.1.take 10), total_errors := some acc.1.length }
    else
      { valid := true,
        message := "CSV data is valid (" ++ toString df.rows.length ++ " rows)",
        warnings := if acc.2 ≠ [] then some (acc.2.take 20) else none,
        total_warnings := if acc.2 ≠ [] then some acc.2.length else none }

/-! ## The Store (`src/pages/data_handler.py`)

The backing CSV file is modelled by the list of its data rows; the
round trip `to_csv` / `read_csv` performed by every operation is taken
as the identity on rows, so a `DataHandler` state is just the table. -/

/-- One stored row, in the fixed column order of `DataHandler.columns`. -/
structure Entry where
  person_id : Val
  timestamp : Val
  heart_rate : Val
  systolic_bp : Val
  diastolic_bp : Val
  energy_level : Val
  notes : Val
  deriving DecidableEq, Repr, Inhabited

/-- The persistent state behind a `DataHandler`: the rows of its CSV
file. -/
structure Store where
  rows : List Entry
  deriving DecidableEq, Repr

/-- `DataHandler.load_data`: the current table of the file (missing-column
backfill and the empty-file case do not arise in a state produced by
the writes of the handler itself). -/
def load_data (s : Store) : List Entry :=
  s.rows

/-- The duplicate mask of `DataHandler.add_entry`: some existing row
matches the new entry on both `person_id` and `timestamp` (pandas `==`
on the columns, i.e. Python `==` per cell).  On an empty table the
source skips the mask; `List.any` on `[]` is `false`, the same outcome. -/
def isDuplicate (e : Entry) (df : List Entry) : Bool :=
  df.any fun r => pyEq r.person_id e.person_id && pyEq r.timestamp e.timestamp

/-- `DataHandler.add_entry`: reject on a `(person_id, timestamp)`
duplicate, otherwise append (`pd.concat`) and rewrite the file. -/
def add_entry (e : Entry) (s : Store) : Bool × Store :=
  if isDuplicate e (load_data s) then (false, s)
  else (true, ⟨load_data s ++ [e]⟩)

/-- The seven canonical columns, as an enumeration for stating
per-column frame properties. -/
inductive Col where
  | person_id | timestamp | heart_rate | systolic_bp | diastolic_bp | energy_level | notes
  deriving DecidableEq, Repr

/-- The column name of a `Col`. -/
def colName : Col → String
  | .person_id => "person_id"
  | .timestamp => "timestamp"
  | .heart_rate => "heart_rate"
  | .systolic_bp => "systolic_bp"
  | .diastolic_bp => "diastolic_bp"
  | .energy_level => "energy_level"
  | .notes => "notes"

/-- Read one cell of a row. -/
def getCol (e : Entry) : Col → Val
  | .person_id => e.person_id
  | .timestamp => e.timestamp
  | .heart_rate => e.heart_rate
  | .systolic_bp => e.systolic_bp
  | .diastolic_bp => e.diastolic_bp
  | .energy_level => e.energy_level
  | .notes => e.notes

/-- `df.loc[index, key] = value` guarded by `key in df.columns`: set the
named cell when `key` is one of the seven columns, otherwise leave the
row unchanged. -/
def setField (e : Entry) (k : String) (v : Val) : Entry :=
  if k = "person_id" then { e with person_id := v }
  else if k = "timestamp" then { e with timestamp := v }
  else if k = "heart_rate" then { e with heart_rate := v }
  else if k = "systolic_bp" then { e with systolic_bp := v }
  else if k = "diastolic_bp" then { e with diastolic_bp := v }
  else if k = "energy_level" then { e with energy_level := v }
  else if k = "notes" then { e with notes := v }
  else e

/-- The update loop of `DataHandler.update_entry`: apply each
`(key, value)` pair of `updated_data.items()` in order. -/
def applyUpdates (e : Entry) (fields : List (String × Val)) : Entry :=
  fields.foldl (fun r kv => setField r kv.1 kv.2) e

/-- `DataHandler.update_entry`: bounds-check the position, then write
the named fields of row `index` and rewrite the file. -/
def update_entry (index : ℤ) (updated_data : List (String × Val)) (s : Store) : Bool × Store :=
  if index < 0 ∨ ((load_data s).length : ℤ) ≤ index then (false, s)
  else
    let df := load_data s
    (true, ⟨df.set index.toNat (applyUpdates (df.getD index.toNat default) updated_data)⟩)

/-- `DataHandler.delete_person_data`: keep the rows whose `person_id`
differs (the pandas filter comparing the person_id column), rewrite, return `True`. -/
def delete_person_data (person_id : Val) (s : Store) : Bool × Store :=
  (true, ⟨(load_data s).filter fun r => !(pyEq r.person_id person_id)⟩)

/-- Number of stored rows sharing the `(person_id, timestamp)` key of
an entry. -/
def countKey (e : Entry) (l : List Entry) : ℕ :=
  l.countP fun r => pyEq r.person_id e.person_id && pyEq r.timestamp e.timestamp

/-- Projection of a validator call that may raise: the `valid` flag when
a verdict was returned, `none` when an exception escaped. -/
def exValid (r : Except String Verdict) : Option Bool :=
  match r with
  | .ok v => some v.valid
  | .error _ => none

/-- Whether `validate_csv_data` counts a row as an error: its entry
validation either raised or returned an invalid verdict. -/
def rowFailsB (now : DateTime) (r : CsvRow) : Bool :=
  match validate_entry_data now (rowToEntry r) with
  | .error _ => true
  | .ok v => !v.valid

/-- A fixed current instant, 2025-06-15 12:00:00, for the concrete CSV
batch example. -/
def exNow : DateTime := ⟨2025, 6, 15, 12, 0, 0⟩

/-- A concrete two-row import table: row 1 is valid with a
blood-pressure warning (150/95), row 2 has an out-of-range heart rate
(999). -/
def exDf : Df :=
  ⟨["person_id", "timestamp", "heart_rate", "systolic_bp", "diastolic_bp", "energy_level", "notes"],
   [⟨.str "john_doe", .dt ⟨2024, 1, 1, 8, 0, 0⟩, .int 70, .int 150, .int 95, .int 5, some (.str "")⟩,
    ⟨.str "jane_doe", .dt ⟨2024, 1, 2, 8, 0, 0⟩, .int 999, .int 120, .int 80, .int 5, some (.str "")⟩]⟩

/-! ## Helper lemmas -/

theorem pyEq_refl (v : Val) : pyEq v v = true := by
  cases v <;> simp [pyEq]

theorem isDuplicate_iff_countKey_pos (e : Entry) (l : List Entry) :
    isDuplicate e l = true ↔ 0 < countKey e l := by
  simp [isDuplicate, countKey, List.any_eq_true, List.countP_pos_iff]

theorem csvLoop_fst_length (now : DateTime) (rows : List CsvRow) (i : ℕ) :
    (csvLoop now rows i).1.length = rows.countP (rowFailsB now) := by
  induction rows generalizing i with
  | nil => simp [csvLoop]
  | cons r rest ih =>
    rcases h : validate_entry_data now (rowToEntry r) with msg | v
    · simp [csvLoop, List.countP_cons, rowFailsB, h, ih]
    · by_cases hv : v.valid = true
      · cases hw : v.warnings <;>
          simp [csvLoop, List.countP_cons, rowFailsB, h, hv, hw, ih]
      · simp [csvLoop, List.countP_cons, rowFailsB, h, hv, ih]

/-! ## Claim theorems -/

/-- Claim C2: for all inputs `(sys, dia)`, `validate_blood_pressure`
returns `valid = true` if and only if both values are numeric,
`70 ≤ sys ≤ 250`, `40 ≤ dia ≤ 150`, and `dia < sys`; in every other
case it returns `valid = false`. -/
theorem blood_pressure_valid_iff (sys dia : Val) :
    (validate_blood_pressure sys dia).valid = true ↔
      (sys.isNum = true ∧ dia.isNum = true ∧
       70 ≤ sys.toQ ∧ sys.toQ ≤ 250 ∧ 40 ≤ dia.toQ ∧ dia.toQ ≤ 150 ∧
       dia.toQ < sys.toQ) := by
  constructor
  · intro h
    unfold validate_blood_pressure at h
    split_ifs at h with h1 h2 h3 h4 h5 h6 h7 h8 <;> simp at h <;>
      (push_neg at h1 h2 h3 h4 h5 h6; exact ⟨h1.1, h1.2, h2, h3, h4, h5, h6⟩)
  · rintro ⟨hs, hd, hb1, hb2, hb3, hb4, hb5⟩
    unfold validate_blood_pressure
    rw [if_neg (by push_neg; exact ⟨hs, hd⟩), if_neg (not_lt.mpr hb1),
        if_neg (not_lt.mpr hb2), if_neg (not_lt.mpr hb3), if_neg (not_lt.mpr hb4),
        if_neg (not_le.mpr hb5)]
    split_ifs <;> rfl

/-- Claim C2 witness: `validate_blood_pressure(120, 80)` is valid. -/
theorem blood_pressure_valid_iff_witness :
    (validate_blood_pressure (.int 120) (.int 80)).valid = true :=
  (blood_pressure_valid_iff (.int 120) (.int 80)).mpr
    (by refine ⟨rfl, rfl, ?_, ?_, ?_, ?_, ?_⟩ <;> norm_num [Val.toQ])

/-- Claim C10: the numeric field validators accept any `int` or `float`
within the stated bounds, not only integers; in particular
`validate_heart_rate(70.5)` and `validate_energy_level(7.5)` are valid. -/
theorem numeric_validators_accept_floats :
    (∀ q : ℚ, 30 ≤ q → q ≤ 200 → (validate_heart_rate (.float q)).valid = true)
    ∧ (∀ n : ℤ, 30 ≤ n → n ≤ 200 → (validate_heart_rate (.int n)).valid = true)
    ∧ (∀ q : ℚ, 1 ≤ q → q ≤ 10 → (validate_energy_level (.float q)).valid = true)
    ∧ (∀ n : ℤ, 1 ≤ n → n ≤ 10 → (validate_energy_level (.int n)).valid = true)
    ∧ (validate_heart_rate (.float 70.5)).valid = true
    ∧ (validate_energy_level (.float 7.5)).valid = true := by
  refine ⟨?_, ?_, ?_, ?_, ?_, ?_⟩
  · intro q h1 h2
    simp only [validate_heart_rate, Val.isNum, Val.toQ]
    rw [if_neg (by simp), if_neg (by simp; linarith), if_neg (by simp; linarith)]
  · intro n h1 h2
    have h1q : (30 : ℚ) ≤ (n : ℚ) := by exact_mod_cast h1
    have h2q : ((n : ℚ)) ≤ 200 := by exact_mod_cast h2
    simp only [validate_heart_rate, Val.isNum, Val.toQ]
    rw [if_neg (by simp), if_neg (by simp; linarith), if_neg (by simp; linarith)]
  · intro q h1 h2
    simp only [validate_energy_level, Val.isNum, Val.toQ]
    rw [if_neg (by simp), if_neg (by simp; linarith), if_neg (by simp; linarith)]
  · intro n h1 h2
    have h1q : (1 : ℚ) ≤ (n : ℚ) := by exact_mod_cast h1
    have h2q : ((n : ℚ)) ≤ 10 := by exact_mod_cast h2
    simp only [validate_energy_level, Val.isNum, Val.toQ]
    rw [if_neg (by simp), if_neg (by simp; linarith), if_neg (by simp; linarith)]
  · norm_num [validate_heart_rate, Val.isNum, Val.toQ]
  · norm_num [validate_energy_level, Val.isNum, Val.toQ]

/-- Claim C10 witness: a concrete float heart rate inside the bounds is
accepted. -/
theorem numeric_validators_accept_floats_witness :
    (validate_heart_rate (.float 45)).valid = true :=
  numeric_validators_accept_floats.1 45 (by norm_num) (by norm_num)

/-- Claim C3: `validate_health_metrics` evaluates its sub-checks in the
fixed order heart rate, blood pressure, energy level; it is invalid
exactly when some sub-check fails, and then it returns the first
failing sub-verdict unmodified (hence with the message of that sub-check). -/
theorem health_metrics_first_failure (hr sys dia en : Val) :
    ((validate_health_metrics hr sys dia en).valid = false ↔
      ((validate_heart_rate hr).valid = false ∨
       (validate_blood_pressure sys dia).valid = false ∨
       (validate_energy_level en).valid = false))
    ∧ ((validate_heart_rate hr).valid = false →
        validate_health_metrics hr sys dia en = validate_heart_rate hr)
    ∧ ((validate_heart_rate hr).valid = true →
       (validate_blood_pressure sys dia).valid = false →
        validate_health_metrics hr sys dia en = validate_blood_pressure sys dia)
    ∧ ((validate_heart_rate hr).valid = true →
       (validate_blood_pressure sys dia).valid = true →
       (validate_energy_level en).valid = false →
        validate_health_metrics hr sys dia en = validate_energy_level en) := by
  by_cases h1 : (validate_heart_rate hr).valid = true <;>
    by_cases h2 : (validate_blood_pressure sys dia).valid = true <;>
      by_cases h3 : (validate_energy_level en).valid = true <;>
        simp_all [validate_health_metrics]

/-- Claim C3 witness: with an out-of-range heart rate, the composite
verdict is the heart-rate verdict itself. -/
theorem health_metrics_first_failure_witness :
    validate_health_metrics (.int 10) (.int 120) (.int 80) (.int 5) =
      validate_heart_rate (.int 10) :=
  (health_metrics_first_failure (.int 10) (.int 120) (.int 80) (.int 5)).2.1 (by decide)

/-- Claim C1: on any store whose table satisfies the documented
`(person_id, timestamp)` uniqueness invariant (at most one stored row
with the key of `r`), calling `add_entry(r)` twice with byte-identical
records leaves exactly one stored row with that key; the second call
returns `false` and leaves the dataset (length and contents) untouched. -/
theorem add_entry_idempotent (s : Store) (e : Entry) :
    (add_entry e (add_entry e s).2).1 = false
    ∧ (add_entry e (add_entry e s).2).2 = (add_entry e s).2
    ∧ (countKey e s.rows ≤ 1 →
        countKey e (add_entry e (add_entry e s).2).2.rows = 1) := by
  by_cases hd : isDuplicate e s.rows = true
  · have h1 : add_entry e s = (false, s) := by simp [add_entry, load_data, hd]
    have hpos := (isDuplicate_iff_countKey_pos e s.rows).mp hd
    refine ⟨?_, ?_, ?_⟩ <;> simp [h1, add_entry, load_data, hd]
    omega
  · have h1 : add_entry e s = (true, ⟨s.rows ++ [e]⟩) := by
      simp [add_entry, load_data, hd]
    have hcnt0 : countKey e s.rows = 0 := by
      by_contra hne
      exact hd ((isDuplicate_iff_countKey_pos e s.rows).mpr (Nat.pos_of_ne_zero hne))
    have hd2 : isDuplicate e (s.rows ++ [e]) = true := by
      simp [isDuplicate, pyEq_refl]
    have h2 : add_entry e (⟨s.rows ++ [e]⟩ : Store) = (false, ⟨s.rows ++ [e]⟩) := by
      simp [add_entry, load_data, hd2]
    have hone : countKey e (s.rows ++ [e]) = 1 := by
      unfold countKey at hcnt0 ⊢
      rw [List.countP_append]
      simp [List.countP_cons, pyEq_refl, hcnt0]
    refine ⟨?_, ?_, fun _ => ?_⟩ <;> rw [h1] <;> simp only [h2]
    exact hone

/-- Claim C1 witness: adding one concrete record twice to the empty
store keeps exactly one row with its key. -/
theorem add_entry_idempotent_witness :
    countKey ⟨.str "john_doe", .str "2024-01-01 08:00:00", .int 70, .int 120, .int 80, .int 5, .str ""⟩
      (add_entry ⟨.str "john_doe", .str "2024-01-01 08:00:00", .int 70, .int 120, .int 80, .int 5, .str ""⟩
        (add_entry ⟨.str "john_doe", .str "2024-01-01 08:00:00", .int 70, .int 120, .int 80, .int 5, .str ""⟩
          ⟨[]⟩).2).2.rows = 1 :=
  (add_entry_idempotent ⟨[]⟩ _).2.2 (by decide)

/-- Claim C7: when no stored row carries the key of `r`, `add_entry(r)`
returns `true`, appends `r`, and a subsequent `load_data()` contains a
row equal to `r` in every field. -/
theorem add_entry_load_roundtrip (s : Store) (e : Entry)
    (h : isDuplicate e (load_data s) = false) :
    add_entry e s = (true, ⟨s.rows ++ [e]⟩)
    ∧ e ∈ load_data (add_entry e s).2 := by
  have h' : isDuplicate e s.rows = false := h
  have h1 : add_entry e s = (true, ⟨s.rows ++ [e]⟩) := by
    simp [add_entry, load_data, h']
  exact ⟨h1, by simp [h1, load_data]⟩

/-- Claim C7 witness: a concrete fresh record is found in the loaded
dataset after `add_entry`. -/
theorem add_entry_load_roundtrip_witness :
    (⟨.str "john_doe", .str "2024-01-01 08:00:00", .int 70, .int 120, .int 80, .int 5, .str ""⟩ : Entry) ∈
      load_data (add_entry
        ⟨.str "john_doe", .str "2024-01-01 08:00:00", .int 70, .int 120, .int 80, .int 5, .str ""⟩
        ⟨[]⟩).2 :=
  (add_entry_load_roundtrip ⟨[]⟩ _ (by decide)).2

/-- Claim C8: `delete_person_data(p)` removes exactly the rows whose
`person_id` equals `p` (Python `==`), keeps every other row with its
fields and relative order intact (the result is a sublist of the
original), and returns `true` even when zero rows matched. -/
theorem delete_person_data_frame (p : Val) (s : Store) :
    (delete_person_data p s).1 = true
    ∧ (delete_person_data p s).2.rows = s.rows.filter (fun r => !(pyEq r.person_id p))
    ∧ ((delete_person_data p s).2.rows).Sublist s.rows
    ∧ (∀ r ∈ (delete_person_data p s).2.rows, pyEq r.person_id p = false)
    ∧ (∀ r ∈ s.rows, pyEq r.person_id p = false → r ∈ (delete_person_data p s).2.rows) := by
  refine ⟨rfl, rfl, List.filter_sublist _, ?_, ?_⟩
  · intro r hr
    have := List.of_mem_filter hr
    simpa using this
  · intro r hr hp
    exact List.mem_filter.mpr ⟨hr, by simp [hp]⟩

/-- Claim C8 witness: deleting `john_doe` from a two-person store keeps
the row of the other person. -/
theorem delete_person_data_frame_witness :
    (⟨.str "alice", .str "2024-01-02 08:00:00", .int 60, .int 110, .int 70, .int 6, .str ""⟩ : Entry) ∈
      (delete_person_data (.str "john_doe")
        ⟨[⟨.str "john_doe", .str "2024-01-01 08:00:00", .int 70, .int 120, .int 80, .int 5, .str ""⟩,
          ⟨.str "alice", .str "2024-01-02 08:00:00", .int 60, .int 110, .int 70, .int 6, .str ""⟩]⟩).2.rows :=
  (delete_person_data_frame (.str "john_doe") _).2.2.2.2 _ (by decide) (by decide)

theorem setField_unknown (e : Entry) (k : String) (v : Val)
    (h : ∀ c : Col, colName c ≠ k) : setField e k v = e := by
  have h1 := h .person_id
  have h2 := h .timestamp
  have h3 := h .heart_rate
  have h4 := h .systolic_bp
  have h5 := h .diastolic_bp
  have h6 := h .energy_level
  have h7 := h .notes
  simp [colName] at h1 h2 h3 h4 h5 h6 h7
  unfold setField
  rw [if_neg (Ne.symm h1), if_neg (Ne.symm h2), if_neg (Ne.symm h3),
      if_neg (Ne.symm h4), if_neg (Ne.symm h5), if_neg (Ne.symm h6), if_neg (Ne.symm h7)]

theorem getCol_setField_ne (e : Entry) (k : String) (v : Val) (c : Col)
    (h : k ≠ colName c) : getCol (setField e k v) c = getCol e c := by
  cases c <;> simp only [colName] at h <;>
    (unfold setField; split_ifs <;> first | rfl | simp_all)

theorem getCol_applyUpdates_ne (e : Entry) (fields : List (String × Val)) (c : Col)
    (h : ∀ kv ∈ fields, kv.1 ≠ colName c) :
    getCol (applyUpdates e fields) c = getCol e c := by
  induction fields generalizing e with
  | nil => rfl
  | cons kv rest ih =>
    simp only [applyUpdates, List.foldl_cons] at *
    rw [ih _ (fun x hx => h x (List.mem_cons_of_mem _ hx)),
        getCol_setField_ne _ _ _ _ (h kv (List.mem_cons_self _ _))]

/-- Claim C9: for an in-bounds position `i`, `update_entry(i, fields)`
returns `true`, rewrites row `i` by applying exactly the given
`(key, value)` pairs, silently ignores keys outside the seven canonical
columns, leaves every cell of row `i` whose column is not named in
`fields` unchanged, and leaves every other row untouched. -/
theorem update_entry_frame (i : ℤ) (fields : List (String × Val)) (s : Store)
    (h0 : 0 ≤ i) (h1 : i < (s.rows.length : ℤ)) :
    (update_entry i fields s).1 = true
    ∧ (update_entry i fields s).2.rows.length = s.rows.length
    ∧ (∀ j : ℕ, j ≠ i.toNat → (update_entry i fields s).2.rows[j]? = s.rows[j]?)
    ∧ (update_entry i fields s).2.rows[i.toNat]? =
        some (applyUpdates (s.rows.getD i.toNat default) fields)
    ∧ (∀ (e : Entry) (k : String) (v : Val), (∀ c : Col, colName c ≠ k) → setField e k v = e)
    ∧ (∀ (e : Entry) (c : Col), (∀ kv ∈ fields, kv.1 ≠ colName c) →
        getCol (applyUpdates e fields) c = getCol e c) := by
  have hcond : ¬(i < 0 ∨ (((load_data s).length : ℤ) ≤ i)) := by
    push_neg
    exact ⟨h0, h1⟩
  have hlt : i.toNat < s.rows.length := by omega
  unfold update_entry
  rw [if_neg hcond]
  refine ⟨rfl, by simp [load_data, List.length_set], ?_, ?_, setField_unknown, ?_⟩
  · intro j hj
    exact List.getElem?_set_ne (Ne.symm hj)
  · exact List.getElem?_set_eq_of_lt _ hlt
  · intro e c hc
    exact getCol_applyUpdates_ne e fields c hc

/-- Claim C9 witness: updating row 0 with one canonical key and one
unknown key writes the named cell and preserves the rest. -/
theorem update_entry_frame_witness :
    (update_entry 0 [("heart_rate", .int 80), ("bogus", .int 1)]
      ⟨[⟨.str "john_doe", .str "2024-01-01 08:00:00", .int 70, .int 120, .int 80, .int 5, .str ""⟩]⟩).1 = true :=
  (update_entry_frame 0 [("heart_rate", .int 80), ("bogus", .int 1)]
    ⟨[⟨.str "john_doe", .str "2024-01-01 08:00:00", .int 70, .int 120, .int 80, .int 5, .str ""⟩]⟩
    (by decide) (by decide)).1

/-- Claim C4 counterexample: with now = 2025-06-15 14:30:00, the
instant 2015-06-15 10:00:00 lies on the date exactly 10 years before
now and is earlier in the day than the time-of-day of now, so the claim
calls it invalid; the code accepts it, because the lookback cutoff is
midnight of that date, not the time-of-day of now. -/
theorem timestamp_lookback_counterexample :
    exValid (validate_timestamp ⟨2025, 6, 15, 14, 30, 0⟩ (.dt ⟨2015, 6, 15, 10, 0, 0⟩)) =
      some true := by
  rfl

/-- Claim C4 (amended): when the lookback date construction succeeds
with value `tya` (midnight of the day-and-month of `now` in year
`now.year - 10`), a datetime input is invalid exactly when it is
strictly after `now` or strictly before that midnight; the instant
exactly `now` itself is valid; and a parseable string input is handled
identically to its parsed instant. -/
theorem validate_timestamp_range (now p tya : DateTime)
    (h : mkDatetime ((now.year : ℤ) - 10) now.month now.day 0 0 0 = some tya) :
    exValid (validate_timestamp now (.dt p)) = some (!(dtLtB now p) && !(dtLtB p tya))
    ∧ exValid (validate_timestamp now (.dt now)) = some true
    ∧ (∀ str : String, ∀ q : DateTime, strptimeFull str = some q →
        validate_timestamp now (.str str) = validate_timestamp now (.dt q))
    ∧ (∀ str : String, ∀ q : DateTime, strptimeFull str = none → strptimeMin str = some q →
        validate_timestamp now (.str str) = validate_timestamp now (.dt q)) := by
  have key : ∀ q : DateTime,
      exValid (validate_timestamp now (.dt q)) = some (!(dtLtB now q) && !(dtLtB q tya)) := by
    intro q
    unfold validate_timestamp checkTimestampRange
    rw [h]
    by_cases hf : dtLtB now q = true
    · simp [hf, exValid]
    · by_cases hl : dtLtB q tya = true <;> simp [hf, hl, exValid]
  have htya : tya.year < now.year := by
    unfold mkDatetime at h
    split_ifs at h with hc
    · injection h with h'
      have hy := congrArg DateTime.year h'
      simp only at hy
      omega
  refine ⟨key p, ?_, ?_, ?_⟩
  · rw [key now]
    have hself : dtLtB now now = false := by simp [dtLtB]
    have hntya : dtLtB now tya = false := by
      unfold dtLtB
      rw [if_pos (by omega : now.year ≠ tya.year)]
      exact decide_eq_false (by omega)
    simp [hself, hntya]
  · intro str q hq
    simp [validate_timestamp, hq]
  · intro str q hq1 hq2
    simp [validate_timestamp, hq1, hq2]

/-- Claim C4 witness: at the concrete now 2025-06-15 14:30:00 the
lookback date is 2015-06-15 00:00:00 and the instant exactly now is
valid. -/
theorem validate_timestamp_range_witness :
    exValid (validate_timestamp ⟨2025, 6, 15, 14, 30, 0⟩ (.dt ⟨2025, 6, 15, 14, 30, 0⟩)) =
      some true :=
  (validate_timestamp_range ⟨2025, 6, 15, 14, 30, 0⟩ ⟨2015, 6, 15, 10, 0, 0⟩
    ⟨2015, 6, 15, 0, 0, 0⟩ (by rfl)).2.1

/-- Claim C5 (code bug): when now is a leap day (2024-02-29 12:00:00),
validating any past instant makes the source construct
`datetime(2014, 2, 29)`, which does not exist; the `ValueError`
escapes `validate_timestamp` instead of being returned as a verdict. -/
theorem timestamp_leap_day_raises :
    validate_timestamp ⟨2024, 2, 29, 12, 0, 0⟩ (.dt ⟨2024, 1, 1, 0, 0, 0⟩) =
      .error "day is out of range for month"
    ∧ mkDatetime 2014 2 29 0 0 0 = none := by
  exact ⟨rfl, rfl⟩

/-- Claim C6 counterexample: on a two-row table whose first row is
valid with a blood-pressure warning and whose second row has an
out-of-range heart rate, the failing result reports the error and the
total error count but carries no warnings and no total warning count,
even though the loop collected a warning for row 1. -/
theorem csv_failure_drops_warnings_counterexample :
    (validate_csv_data exNow exDf).valid = false
    ∧ (validate_csv_data exNow exDf).errors =
        some ["Row 2: Heart rate too high (maximum 200 BPM)"]
    ∧ (validate_csv_data exNow exDf).total_errors = some 1
    ∧ (validate_csv_data exNow exDf).warnings = none
    ∧ (validate_csv_data exNow exDf).total_warnings = none
    ∧ (csvLoop exNow exDf.rows 0).2 = ["Row 1: Blood pressure is in the high range"] := by
  refine ⟨?_, ?_, ?_, ?_, ?_, ?_⟩ <;> decide

/-- Claim C6 (amended): with all required columns present and at least
one row, every row is validated (the error count equals the number of
failing rows over the whole table); a failing result carries up to 10
error messages and the total error count but omits warnings and the
warning count entirely; up to 20 warnings with the total warning count
are reported only when every row passes. -/
theorem csv_errors_and_warnings (now : DateTime) (df : Df)
    (hcols : required_columns.filter (fun c => !(df.columns.contains c)) = [])
    (hrows : df.rows ≠ []) :
    ((validate_csv_data now df).valid = false ↔ (csvLoop now df.rows 0).1 ≠ [])
    ∧ ((csvLoop now df.rows 0).1 ≠ [] →
        (validate_csv_data now df).errors = some ((csvLoop now df.rows 0).1.take 10)
        ∧ (validate_csv_data now df).total_errors = some (csvLoop now df.rows 0).1.length
        ∧ (validate_csv_data now df).warnings = none
        ∧ (validate_csv_data now df).total_warnings = none)
    ∧ ((csvLoop now df.rows 0).1 = [] →
        (validate_csv_data now df).valid = true
        ∧ (validate_csv_data now df).warnings =
            (if (csvLoop now df.rows 0).2 ≠ [] then some ((csvLoop now df.rows 0).2.take 20)
             else none)
        ∧ (validate_csv_data now df).total_warnings =
            (if (csvLoop now df.rows 0).2 ≠ [] then some (csvLoop now df.rows 0).2.length
             else none))
    ∧ (csvLoop now df.rows 0).1.length = df.rows.countP (rowFailsB now) := by
  have hnem : ¬ ∃ x ∈ required_columns, x ∉ df.columns := by
    rw [List.filter_eq_nil_iff] at hcols
    push_neg
    intro x hx
    have := hcols x hx
    simpa using this
  refine ⟨?_, ?_, ?_, csvLoop_fst_length now df.rows 0⟩ <;>
    by_cases herr : (csvLoop now df.rows 0).1 = [] <;>
      simp [validate_csv_data, hnem, hrows, herr]

/-- Claim C6 witness: on the concrete two-row table the error count
equals the number of failing rows. -/
theorem csv_errors_and_warnings_witness :
    (csvLoop exNow exDf.rows 0).1.length = exDf.rows.countP (rowFailsB exNow) :=
  (csv_errors_and_warnings exNow exDf (by rfl) (by simp [exDf])).2.2.2

end Circadian
